import Mathlib

set_option maxRecDepth 100000
set_option maxHeartbeats 2000000

/-!
Verification of the command/file-event interception gate implemented by the
two hook scripts `docker-command-guard.py` and `typescript-quality-guard.py`.

The scripts are regex-driven, so the embedding starts with a small executable
matcher for exactly the fragment of the Python `re` language the catalogs use:
literals, the classes \w \s \d and `.`, concatenation, alternation `|`,
Kleene star / plus, the word-boundary assertion \b, negative lookahead
`(?! ... )`, and the end anchor `$`.  `re.search` semantics (match anywhere in
the input) and the `re.IGNORECASE` flag are modelled explicitly.
-/

/-- Characters matched by the Python class \w in the ASCII fragment:
letters, digits and underscore. -/
def isWordChar (c : Char) : Bool :=
  (97 ≤ c.toNat && c.toNat ≤ 122) || (65 ≤ c.toNat && c.toNat ≤ 90) ||
    (48 ≤ c.toNat && c.toNat ≤ 57) || c == '_'

/-- Characters matched by the Python class \s in the ASCII fragment. -/
def isSpaceChar (c : Char) : Bool :=
  c == ' ' || c == '\t' || c == '\n' || c == '\r' || c.toNat == 11 || c.toNat == 12

/-- Characters matched by the Python class \d in the ASCII fragment. -/
def isDigitChar (c : Char) : Bool :=
  48 ≤ c.toNat && c.toNat ≤ 57

/-- Abstract syntax of the regex fragment used by the hook scripts. -/
inductive Rx where
  | eps : Rx
  | lit : Char → Rx
  | wordc : Rx
  | spacec : Rx
  | digitc : Rx
  | dot : Rx
  | seq : Rx → Rx → Rx
  | alt : Rx → Rx → Rx
  | star : Rx → Rx
  | bound : Rx
  | nla : Rx → Rx
  | eol : Rx
deriving Repr, DecidableEq

/-- A list of literal characters, as a regex. -/
def rchars : List Char → Rx
  | [] => .eps
  | c :: cs => .seq (.lit c) (rchars cs)

/-- A literal string, as a regex. -/
def rstr (s : String) : Rx := rchars s.toList

/-- Concatenation of a list of regexes. -/
def rcat : List Rx → Rx
  | [] => .eps
  | r :: rs => .seq r (rcat rs)

/-- One-or-more repetition, Python `+`. -/
def rplus (r : Rx) : Rx := .seq r (.star r)

/-- Lower-case every literal of a regex (the character classes are already
case-stable), modelling how `re.IGNORECASE` affects the ASCII fragment. -/
def rxLower : Rx → Rx
  | .lit c => .lit c.toLower
  | .seq a b => .seq (rxLower a) (rxLower b)
  | .alt a b => .alt (rxLower a) (rxLower b)
  | .star a => .star (rxLower a)
  | .nla a => .nla (rxLower a)
  | r => r

/-- Structural size of a regex, used only to budget matcher fuel. -/
def rxSize : Rx → Nat
  | .seq a b => rxSize a + rxSize b + 1
  | .alt a b => rxSize a + rxSize b + 1
  | .star a => rxSize a + 1
  | .nla a => rxSize a + 1
  | _ => 1

/-- Is the character just before the current position a word character?
`none` stands for the start of the string. -/
def wordBefore : Option Char → Bool
  | some c => isWordChar c
  | none => false

/-- Is the character at the current position a word character?
An empty remainder stands for the end of the string. -/
def wordAfter : List Char → Bool
  | c :: _ => isWordChar c
  | [] => false

/-- All ways a regex can match a prefix of `rest`; a matcher state is the
previously consumed character (for \b) together with the remaining input
(so zero-width assertions can look ahead).  The fuel argument only bounds
recursion depth; it is budgeted generously by the entry points. -/
def matchAt : Nat → Rx → Option Char → List Char → List (Option Char × List Char)
  | 0, _, _, _ => []
  | Nat.succ fuel, r, prev, rest =>
    match r with
    | .eps => [(prev, rest)]
    | .lit c =>
      match rest with
      | ch :: rest2 => if ch == c then [(some ch, rest2)] else []
      | [] => []
    | .wordc =>
      match rest with
      | ch :: rest2 => if isWordChar ch then [(some ch, rest2)] else []
      | [] => []
    | .spacec =>
      match rest with
      | ch :: rest2 => if isSpaceChar ch then [(some ch, rest2)] else []
      | [] => []
    | .digitc =>
      match rest with
      | ch :: rest2 => if isDigitChar ch then [(some ch, rest2)] else []
      | [] => []
    | .dot =>
      match rest with
      | ch :: rest2 => if ch == '\n' then [] else [(some ch, rest2)]
      | [] => []
    | .seq a b =>
      (matchAt fuel a prev rest).flatMap (fun st => matchAt fuel b st.1 st.2)
    | .alt a b => matchAt fuel a prev rest ++ matchAt fuel b prev rest
    | .star a =>
      (prev, rest) ::
        ((matchAt fuel a prev rest).filter (fun st => st.2.length < rest.length)).flatMap
          (fun st => matchAt fuel (.star a) st.1 st.2)
    | .bound => if wordBefore prev != wordAfter rest then [(prev, rest)] else []
    | .nla a => if (matchAt fuel a prev rest).isEmpty then [(prev, rest)] else []
    | .eol => if rest == [] || rest == ['\n'] then [(prev, rest)] else []

/-- Try the regex at every start position, like `re.search`. -/
def searchFrom (fuel : Nat) (r : Rx) : Option Char → List Char → Bool
  | prev, [] => !(matchAt fuel r prev []).isEmpty
  | prev, c :: t =>
    !(matchAt fuel r prev (c :: t)).isEmpty || searchFrom fuel r (some c) t

/-- Python `re.search(r, s)` returning whether a match exists; `ci = true`
models the `re.IGNORECASE` flag by lower-casing both pattern literals and
input (equivalent on the ASCII fragment the catalogs use). -/
def reSearch (ci : Bool) (r : Rx) (s : String) : Bool :=
  let rr := if ci then rxLower r else r
  let cs := if ci then s.toList.map Char.toLower else s.toList
  searchFrom ((cs.length + 1) * (rxSize rr + 1) + 1) rr none cs

/-- Does `a` occur at the head of `b`? -/
def leadsWith : List Char → List Char → Bool
  | [], _ => true
  | _ :: _, [] => false
  | a :: as, b :: bs => a == b && leadsWith as bs

/-- Does `needle` occur anywhere in `hay`? -/
def hasSub (needle : List Char) : List Char → Bool
  | [] => leadsWith needle []
  | c :: t => leadsWith needle (c :: t) || hasSub needle t

/-- Python `needle in hay` on strings (case-sensitive substring test). -/
def strIn (needle hay : String) : Bool := hasSub needle.toList hay.toList

/-- Outcome of one gate invocation: the process exit code together with the
lines printed to the side channel (standard error). -/
structure GuardOutput where
  exitCode : Nat
  stderrLines : List String
deriving Repr, DecidableEq

namespace DockerGuard

/-- Source regex `\bnpm\s+run\s+(dev|serve)\b`. -/
def blockedNpmDev : Rx :=
  rcat [.bound, rstr "npm", rplus .spacec, rstr "run", rplus .spacec,
    .alt (rstr "dev") (rstr "serve"), .bound]

/-- Source regex `\byarn\s+(dev|serve)\b`. -/
def blockedYarnDev : Rx :=
  rcat [.bound, rstr "yarn", rplus .spacec, .alt (rstr "dev") (rstr "serve"), .bound]

/-- Source regex `\bpnpm\s+(dev|serve)\b`. -/
def blockedPnpmDev : Rx :=
  rcat [.bound, rstr "pnpm", rplus .spacec, .alt (rstr "dev") (rstr "serve"), .bound]

/-- Source regex `\bvite\b(?!.*build)` (vite without build). -/
def blockedVite : Rx :=
  rcat [.bound, rstr "vite", .bound, .nla (.seq (.star .dot) (rstr "build"))]

/-- Source regex `\bpython\s+manage\.py\s+runserver\b`. -/
def blockedRunserver : Rx :=
  rcat [.bound, rstr "python", rplus .spacec, rstr "manage.py", rplus .spacec,
    rstr "runserver", .bound]

/-- Source regex `\b\.\/manage\.py\s+runserver\b`. -/
def blockedRunserverDotSlash : Rx :=
  rcat [.bound, rstr "./manage.py", rplus .spacec, rstr "runserver", .bound]

/-- Source regex `\bpython\s+manage\.py\s+(?!startapp\b)\w+`: the broad
management-command block with the embedded negative exception for the one
exempted subcommand. -/
def blockedDjangoManagement : Rx :=
  rcat [.bound, rstr "python", rplus .spacec, rstr "manage.py", rplus .spacec,
    .nla (.seq (rstr "startapp") .bound), rplus .wordc]

/-- Source regex `\b\.\/manage\.py\s+(?!startapp\b)\w+`. -/
def blockedDjangoManagementDotSlash : Rx :=
  rcat [.bound, rstr "./manage.py", rplus .spacec,
    .nla (.seq (rstr "startapp") .bound), rplus .wordc]

/-- Source regex `\buvicorn\b(?!.*--help)`. -/
def blockedUvicorn : Rx :=
  rcat [.bound, rstr "uvicorn", .bound, .nla (.seq (.star .dot) (rstr "--help"))]

/-- Source regex `\bgunicorn\b(?!.*--help)`. -/
def blockedGunicorn : Rx :=
  rcat [.bound, rstr "gunicorn", .bound, .nla (.seq (.star .dot) (rstr "--help"))]

/-- Source regex `\bdaphne\b(?!.*--help)`. -/
def blockedDaphne : Rx :=
  rcat [.bound, rstr "daphne", .bound, .nla (.seq (.star .dot) (rstr "--help"))]

/-- Source regex `\bcelery\s+-A\s+\w+\s+worker\b`. -/
def blockedCeleryWorker : Rx :=
  rcat [.bound, rstr "celery", rplus .spacec, rstr "-A", rplus .spacec,
    rplus .wordc, rplus .spacec, rstr "worker", .bound]

/-- `BLOCKED_PATTERNS` in declared order. -/
def BLOCKED_PATTERNS : List Rx :=
  [blockedNpmDev, blockedYarnDev, blockedPnpmDev, blockedVite,
   blockedRunserver, blockedRunserverDotSlash,
   blockedDjangoManagement, blockedDjangoManagementDotSlash,
   blockedUvicorn, blockedGunicorn, blockedDaphne, blockedCeleryWorker]

/-- Source regex `\bnpm\s+run\s+build\b`. -/
def allowedNpmBuild : Rx :=
  rcat [.bound, rstr "npm", rplus .spacec, rstr "run", rplus .spacec, rstr "build", .bound]

/-- Source regex `\bnpm\s+run\s+test\b`. -/
def allowedNpmTest : Rx :=
  rcat [.bound, rstr "npm", rplus .spacec, rstr "run", rplus .spacec, rstr "test", .bound]

/-- Source regex `\byarn\s+build\b`. -/
def allowedYarnBuild : Rx :=
  rcat [.bound, rstr "yarn", rplus .spacec, rstr "build", .bound]

/-- Source regex `\bvite\s+build\b`. -/
def allowedViteBuild : Rx :=
  rcat [.bound, rstr "vite", rplus .spacec, rstr "build", .bound]

/-- Source regex `\bpython\s+manage\.py\s+startapp\b`: the narrow explicit
allow rule for the one exempted management subcommand. -/
def allowedStartapp : Rx :=
  rcat [.bound, rstr "python", rplus .spacec, rstr "manage.py", rplus .spacec,
    rstr "startapp", .bound]

/-- Source regex `\b\.\/manage\.py\s+startapp\b`. -/
def allowedStartappDotSlash : Rx :=
  rcat [.bound, rstr "./manage.py", rplus .spacec, rstr "startapp", .bound]

/-- Source regex `\bdocker\s+compose\b`. -/
def allowedDockerCompose : Rx :=
  rcat [.bound, rstr "docker", rplus .spacec, rstr "compose", .bound]

/-- Source regex `\bdocker-compose\b`. -/
def allowedDockerComposeDash : Rx :=
  rcat [.bound, rstr "docker-compose", .bound]

/-- Source regex `\bdocker\s+`. -/
def allowedDockerAny : Rx :=
  rcat [.bound, rstr "docker", rplus .spacec]

/-- Source regex `\bnpm\s+(install|ci|update)\b`. -/
def allowedNpmPackages : Rx :=
  rcat [.bound, rstr "npm", rplus .spacec,
    .alt (rstr "install") (.alt (rstr "ci") (rstr "update")), .bound]

/-- Source regex `\bpip\s+install\b`. -/
def allowedPipInstall : Rx :=
  rcat [.bound, rstr "pip", rplus .spacec, rstr "install", .bound]

/-- `ALLOWED_PATTERNS` in declared order. -/
def ALLOWED_PATTERNS : List Rx :=
  [allowedNpmBuild, allowedNpmTest, allowedYarnBuild, allowedViteBuild,
   allowedStartapp, allowedStartappDotSlash,
   allowedDockerCompose, allowedDockerComposeDash, allowedDockerAny,
   allowedNpmPackages, allowedPipInstall]

/-- `HELP_MESSAGES['npm_dev']`. -/
def HELP_npm_dev : String :=
  "\n❌ BLOCKED: npm run dev\n\nThis command is already running in Docker.\n\n✅ Instead use:\n  - View logs: docker compose logs -f frontend\n  - Restart: docker compose restart frontend\n  - Build: docker compose run --rm frontend npm run build\n"

/-- `HELP_MESSAGES['django_runserver']`. -/
def HELP_django_runserver : String :=
  "\n❌ BLOCKED: python manage.py runserver\n\nThis command is already running in Docker.\n\n✅ Instead use:\n  - View logs: docker compose logs -f django\n  - Restart: docker compose restart django\n  - Shell: docker compose run --rm django python manage.py shell\n"

/-- `HELP_MESSAGES['django_management']`. -/
def HELP_django_management : String :=
  "\n❌ BLOCKED: python manage.py <command>\n\nDjango management commands require the Postgres database running in Docker.\n\n✅ Instead use:\n  - Migrations: docker compose run --rm django python manage.py makemigrations\n  - Migrate: docker compose run --rm django python manage.py migrate\n  - Shell: docker compose run --rm django python manage.py shell\n  - Create superuser: docker compose run --rm django python manage.py createsuperuser\n  - Custom commands: docker compose run --rm django python manage.py <command>\n\n⚠️  EXCEPTION: Only \x27startapp\x27 runs locally (for file ownership):\n  - Create app: python manage.py startapp <app_name>\n"

/-- `HELP_MESSAGES['uvicorn']`. -/
def HELP_uvicorn : String :=
  "\n❌ BLOCKED: uvicorn/gunicorn dev server\n\nThis service is already running in Docker.\n\n✅ Instead use:\n  - View logs: docker compose logs -f backend\n  - Restart: docker compose restart backend\n  - Run commands: docker compose run --rm backend <command>\n"

/-- `HELP_MESSAGES['celery_worker']`. -/
def HELP_celery_worker : String :=
  "\n❌ BLOCKED: celery worker\n\nCelery worker is already running in Docker.\n\n✅ Instead use:\n  - View logs: docker compose logs -f celery\n  - Restart: docker compose restart celery\n  - Inspect: docker compose exec celery celery -A <app> inspect active\n"

/-- The generic fallback text of `get_help_message`. -/
def HELP_fallback : String :=
  "This command conflicts with Docker services already running."

/-- The `HELP_MESSAGES` dictionary, in declared order. -/
def HELP_MESSAGES : List (String × String) :=
  [("npm_dev", HELP_npm_dev), ("django_runserver", HELP_django_runserver),
   ("django_management", HELP_django_management), ("uvicorn", HELP_uvicorn),
   ("celery_worker", HELP_celery_worker)]

/-- `get_help_message`: the ordered, case-sensitive chain of `re.search`
tests the script uses to pick a help message for a blocked command.  Note
the searches here carry no `re.IGNORECASE` flag, unlike the classification
in `should_block_command`. -/
def get_help_message (command : String) : String :=
  if reSearch false blockedNpmDev command then HELP_npm_dev
  else if reSearch false blockedRunserver command then HELP_django_runserver
  else if reSearch false blockedDjangoManagement command then HELP_django_management
  else if reSearch false (rcat [.bound,
      .alt (rstr "uvicorn") (.alt (rstr "gunicorn") (rstr "daphne")), .bound]) command then
    HELP_uvicorn
  else if reSearch false blockedCeleryWorker command then HELP_celery_worker
  else HELP_fallback

/-- `should_block_command`: allow patterns are checked before block patterns,
each with `re.IGNORECASE`.  Returns the pair (should_block, reason). -/
def should_block_command (command : String) : Bool × String :=
  if ALLOWED_PATTERNS.any (fun p => reSearch true p command) then (false, "")
  else if BLOCKED_PATTERNS.any (fun p => reSearch true p command) then
    (true, get_help_message command)
  else (false, "")

/-- The fields of the stdin event that the script ever reads: `tool_name`
is present in hook events but this script never reads it; the command is
`hook_input.get('tool_input', \x7b\x7d).get('command', '')`, so a missing
field degrades to the empty string. -/
structure HookEvent where
  tool_name : Option String
  command : Option String
deriving Repr, DecidableEq

/-- `main` of docker-command-guard.py: an `Except.error` input models any
exception escaping the pipeline (e.g. `json.load` failing on malformed
stdin), caught by the single outermost handler. -/
def main : Except String HookEvent → GuardOutput
  | .error e => ⟨0, ["Hook error: " ++ e]⟩
  | .ok ev =>
    let command := ev.command.getD ""
    if command == "" then ⟨0, []⟩
    else
      let res := should_block_command command
      if res.1 then ⟨2, [res.2]⟩ else ⟨0, []⟩

end DockerGuard

namespace TsGuard

/-- Source trigger regex `\.spec\.ts|\.test\.ts` for the "test mock" entry. -/
def testMockTrigger : Rx := .alt (rstr ".spec.ts") (rstr ".test.ts")

/-- Source trigger regex `\.vue$` for the "vue component" entry. -/
def vueTrigger : Rx := .seq (rstr ".vue") .eol

/-- Source trigger regex `\.types\.ts|types/.*\.ts` for the "typescript types" entry. -/
def typesTrigger : Rx :=
  .alt (rstr ".types.ts") (rcat [rstr "types/", .star .dot, rstr ".ts"])

/-- Source trigger regex `composables/.*\.ts` for the "composable" entry. -/
def composableTrigger : Rx := rcat [rstr "composables/", .star .dot, rstr ".ts"]

/-- Warning text of the "test mock" entry of `PATTERN_WARNINGS`. -/
def testMockWarning : String :=
  "\n⚠️  TYPESCRIPT QUALITY REMINDER: Writing Test File\n\nCommon test patterns that cause TypeScript errors:\n\n1. Template Refs - Cast to proper HTML type:\n   ✅ (wrapper.find(\x27[data-test=\"input\"]\x27).element as HTMLInputElement).value\n\n2. Component Instance Access - Use \x27any\x27 in tests:\n   ✅ await (wrapper.vm as any).methodName()\n\n3. Mock Composables - Match real return types:\n   ✅ Use computed(() => value) for computed refs, not ref(value)\n\n4. Complete Mocks - Include ALL required properties:\n   💡 Hover over type in VSCode to see all required fields\n\nReference: frontend/TYPESCRIPT_PATTERNS.md\n"

/-- Warning text of the "vue component" entry of `PATTERN_WARNINGS`. -/
def vueWarning : String :=
  "\n⚠️  TYPESCRIPT QUALITY REMINDER: Writing Vue Component\n\nBefore writing component code:\n\n1. Run type-check to ensure codebase is clean:\n   docker compose run --rm frontend npm run type-check\n\n2. If creating types, ensure unions/enums are COMPLETE:\n   ✅ Add ALL possible values upfront to avoid future errors\n\n3. API calls should use generic types:\n   ✅ api.get<User>(\x27/users/me/\x27) not api.get(\x27/users/me/\x27)\n\nReference: /lint-and-format --frontend --categorize --suggest-fixes\n"

/-- Warning text of the "typescript types" entry of `PATTERN_WARNINGS`. -/
def typesWarning : String :=
  "\n⚠️  TYPESCRIPT QUALITY REMINDER: Writing Type Definitions\n\nType safety checklist:\n\n1. Union types - Include ALL possible values now, not later\n2. Interfaces - Mark optional fields with \x27?\x27\n3. Enums - Add new values as features are created\n4. null vs undefined - Be consistent (prefer null)\n\nCommon issue: Adding type values after code uses them\n✅ Update type FIRST, then use new values in code\n\nReference: frontend/TYPESCRIPT_PATTERNS.md - Pattern 7\n"

/-- Warning text of the "composable" entry of `PATTERN_WARNINGS`. -/
def composableWarning : String :=
  "\n⚠️  TYPESCRIPT QUALITY REMINDER: Writing Composable\n\nComposable type safety:\n\n1. Computed properties - Return ComputedRef<T>, not Ref<T>\n2. Refs - Use Ref<T> for mutable state\n3. Return types - Explicitly type the return object\n4. Generic types - Use <T> for reusable composables\n\nCommon issue: Mixing ref() and computed() incorrectly\n✅ If logic computes a value, use computed(), not ref()\n\nReference: frontend/TYPESCRIPT_PATTERNS.md - Pattern 6\n"

/-- `PATTERN_WARNINGS`: entry name, trigger regex and warning text, in the
insertion order of the source dictionary. -/
def PATTERN_WARNINGS : List (String × Rx × String) :=
  [("test mock", testMockTrigger, testMockWarning),
   ("vue component", vueTrigger, vueWarning),
   ("typescript types", typesTrigger, typesWarning),
   ("composable", composableTrigger, composableWarning)]

/-- `get_pattern_warning`: the warning of the first entry whose trigger
matches the file path (`re.search` with `re.IGNORECASE`), if any. -/
def get_pattern_warning (file_path : String) : Option String :=
  (PATTERN_WARNINGS.find? (fun pw => reSearch true pw.2.1 file_path)).map
    (fun pw => pw.2.2)

/-- How the external probe run inside `check_typescript_error_count` can end:
the frontend directory is absent, the subprocess raises (including the
30-second timeout), or it completes with some text on its error stream. -/
inductive ProbeOutcome where
  | noFrontendDir : ProbeOutcome
  | raised : ProbeOutcome
  | completed : String → ProbeOutcome
deriving Repr, DecidableEq

/-- The marker regex `error TS\d+:` counted by `re.findall`. -/
def tsErrorMarker : Rx := rcat [rstr "error TS", rplus .digitc, rstr ":"]

/-- The greedy (longest) match of `r` at the current state, if any. -/
def bestConsume (fuel : Nat) (r : Rx) (prev : Option Char) (rest : List Char) :
    Option (Option Char × List Char) :=
  (matchAt fuel r prev rest).foldl
    (fun acc st =>
      match acc with
      | none => some st
      | some st2 => if st.2.length < st2.2.length then some st else acc) none

/-- Count non-overlapping matches left to right, like `re.findall`: after a
match, scanning resumes at its end (advancing one character on a zero-width
match so the scan always progresses). -/
def countFrom (mfuel : Nat) (r : Rx) : Nat → Option Char → List Char → Nat
  | 0, _, _ => 0
  | Nat.succ fl, prev, rest =>
    match bestConsume mfuel r prev rest with
    | some st =>
      if st.2.length < rest.length then 1 + countFrom mfuel r fl st.1 st.2
      else
        match rest with
        | [] => 1
        | c :: t => 1 + countFrom mfuel r fl (some c) t
    | none =>
      match rest with
      | [] => 0
      | c :: t => countFrom mfuel r fl (some c) t

/-- `len(re.findall(r, s))` for the marker pattern (no flags, so the search
is case-sensitive). -/
def countMatches (r : Rx) (s : String) : Nat :=
  let cs := s.toList
  countFrom ((cs.length + 1) * (rxSize r + 1) + 1) r (cs.length + 1) none cs

/-- `check_typescript_error_count`: `none` models the Python `None` returned
when the frontend directory is missing or the subprocess raises; otherwise
the count of `error TS\d+:` markers on the captured error stream. -/
def check_typescript_error_count : ProbeOutcome → Option Nat
  | .noFrontendDir => none
  | .raised => none
  | .completed txt => some (countMatches tsErrorMarker txt)

/-- The fields of the stdin event that the script reads:
`hook_input.get("tool_name", "")` and
`hook_input.get("tool_input", \x7b\x7d).get("file_path", "")`; a missing
field degrades to the empty string. -/
structure HookEvent where
  tool_name : Option String
  file_path : Option String
deriving Repr, DecidableEq

/-- The three lines appended to a warning when the probe reports a strictly
positive error count. -/
def enrichment (n : Nat) : String :=
  "\n⚠️  CURRENT TYPESCRIPT ERRORS: " ++ toString n ++ "\n" ++
    "   Consider fixing existing errors before adding new code.\n" ++
    "   Run: /lint-and-format --frontend --categorize\n"

/-- `main` of typescript-quality-guard.py: an `Except.error` input models any
exception escaping the pipeline, caught by the single outermost handler; the
probe outcome stands for the external subprocess behaviour. -/
def main (input : Except String HookEvent) (probe : ProbeOutcome) : GuardOutput :=
  match input with
  | .error e => ⟨0, ["TypeScript Quality Guard hook error: " ++ e]⟩
  | .ok ev =>
    let tool_name := ev.tool_name.getD ""
    if tool_name == "Write" || tool_name == "Edit" then
      let file_path := ev.file_path.getD ""
      if file_path == "" then ⟨0, []⟩
      else if strIn "frontend/src" file_path || strIn "frontend\\src" file_path then
        match get_pattern_warning file_path with
        | none => ⟨0, []⟩
        | some warning =>
          match check_typescript_error_count probe with
          | some n =>
            if n > 0 then ⟨0, [warning ++ enrichment n]⟩ else ⟨0, [warning]⟩
          | none => ⟨0, [warning]⟩
      else ⟨0, []⟩
    else ⟨0, []⟩

end TsGuard

/-! ## Claims -/

namespace DockerGuard

/-- C1: Allow-precedence.  Every command string matching at least one allow
pattern classifies as ALLOW — `should_block_command` returns no block and an
empty reason, and the gate exits 0 with no side-channel output — even when a
block pattern also matches; in particular the container-orchestration command
"docker compose run --rm django python manage.py migrate" is allowed. -/
theorem allow_precedence (cmd : String) (tn : Option String)
    (h : ALLOWED_PATTERNS.any (fun p => reSearch true p cmd) = true) :
    should_block_command cmd = (false, "") ∧
    main (.ok ⟨tn, some cmd⟩) = ⟨0, []⟩ ∧
    main (.ok ⟨some "Bash",
      some "docker compose run --rm django python manage.py migrate"⟩) = ⟨0, []⟩ := by
  refine ⟨?_, ?_, by decide⟩
  · simp [should_block_command, h]
  · by_cases hc : cmd = ""
    · subst hc; rfl
    · simp [main, Option.getD, hc, should_block_command, h]

/-- Witness for C1 at the claim's own example, which matches both the
container-orchestration allow pattern and the management-command block
pattern. -/
theorem allow_precedence_witness :
    should_block_command "docker compose run --rm django python manage.py migrate" =
      (false, "") ∧
    main (.ok ⟨some "Bash",
      some "docker compose run --rm django python manage.py migrate"⟩) = ⟨0, []⟩ ∧
    main (.ok ⟨some "Bash",
      some "docker compose run --rm django python manage.py migrate"⟩) = ⟨0, []⟩ :=
  allow_precedence "docker compose run --rm django python manage.py migrate"
    (some "Bash") (by decide)

/-- C2 counterexample: "yarn dev" matches the yarn block pattern and no allow
pattern, so it is blocked, yet the rendered message is the generic fallback
("conflicts with the managed environment"), not the frontend dev-server
category message the claim requires. -/
theorem yarn_dev_fallback_cex :
    should_block_command "yarn dev" = (true, HELP_fallback) ∧
    reSearch true blockedYarnDev "yarn dev" = true ∧
    (ALLOWED_PATTERNS.any (fun p => reSearch true p "yarn dev")) = false ∧
    HELP_fallback ≠ HELP_npm_dev := by
  exact ⟨by decide, by decide, by decide, by decide⟩

/-- C2 amended: a command matching no allow pattern and at least one block
pattern returns BLOCK with the message chosen by `get_help_message`, an
independent ordered case-sensitive chain (npm dev, manage.py runserver,
other manage.py commands, uvicorn family, celery worker); commands blocked
only by the yarn, pnpm or vite patterns fall through that chain to the
generic fallback message. -/
theorem block_message_resolution (cmd : String)
    (hA : ALLOWED_PATTERNS.any (fun p => reSearch true p cmd) = false)
    (hB : BLOCKED_PATTERNS.any (fun p => reSearch true p cmd) = true) :
    should_block_command cmd = (true, get_help_message cmd) ∧
    main (.ok ⟨some "Bash", some cmd⟩) = ⟨2, [get_help_message cmd]⟩ ∧
    get_help_message "npm run dev" = HELP_npm_dev ∧
    get_help_message "python manage.py migrate" = HELP_django_management ∧
    get_help_message "yarn dev" = HELP_fallback ∧
    get_help_message "pnpm serve" = HELP_fallback := by
  have hne : cmd ≠ "" := by
    intro hc; subst hc; exact absurd hB (by decide)
  refine ⟨?_, ?_, by decide, by decide, by decide, by decide⟩
  · simp [should_block_command, hA, hB]
  · simp [main, Option.getD, hne, should_block_command, hA, hB]

/-- Witness for C2's amended theorem at "yarn dev". -/
theorem block_message_resolution_witness :
    should_block_command "yarn dev" = (true, get_help_message "yarn dev") ∧
    main (.ok ⟨some "Bash", some "yarn dev"⟩) = ⟨2, [get_help_message "yarn dev"]⟩ ∧
    get_help_message "npm run dev" = HELP_npm_dev ∧
    get_help_message "python manage.py migrate" = HELP_django_management ∧
    get_help_message "yarn dev" = HELP_fallback ∧
    get_help_message "pnpm serve" = HELP_fallback :=
  block_message_resolution "yarn dev" (by decide) (by decide)

/-- C3: Exemption correctness.  "python manage.py startapp blog" classifies
as ALLOW and exits 0 with no output; "python manage.py migrate" classifies as
BLOCK and exits 2 with the management-command category message; and the
broad block pattern's embedded negative exception alone already fails to
match the exempted subcommand while matching other subcommands. -/
theorem startapp_exemption :
    should_block_command "python manage.py startapp blog" = (false, "") ∧
    main (.ok ⟨some "Bash", some "python manage.py startapp blog"⟩) = ⟨0, []⟩ ∧
    should_block_command "python manage.py migrate" = (true, HELP_django_management) ∧
    main (.ok ⟨some "Bash", some "python manage.py migrate"⟩) =
      ⟨2, [HELP_django_management]⟩ ∧
    reSearch true blockedDjangoManagement "python manage.py startapp blog" = false ∧
    reSearch true blockedDjangoManagement "python manage.py startapp" = false ∧
    reSearch true blockedDjangoManagement "python manage.py makemigrations" = true ∧
    reSearch true blockedDjangoManagement "python manage.py shell" = true := by
  exact ⟨by decide, by decide, by decide, by decide, by decide, by decide,
    by decide, by decide⟩

/-- C9: Default-allow.  A command matching no allow and no block pattern
classifies as ALLOW with no message and the gate exits 0 silently; the empty
command likewise always yields ALLOW, exit 0, no output. -/
theorem default_allow (cmd : String) (tn : Option String)
    (hA : ALLOWED_PATTERNS.any (fun p => reSearch true p cmd) = false)
    (hB : BLOCKED_PATTERNS.any (fun p => reSearch true p cmd) = false) :
    should_block_command cmd = (false, "") ∧
    main (.ok ⟨tn, some cmd⟩) = ⟨0, []⟩ ∧
    should_block_command "" = (false, "") ∧
    (∀ t : Option String, main (.ok ⟨t, some ""⟩) = ⟨0, []⟩) := by
  refine ⟨?_, ?_, by decide, fun t => rfl⟩
  · simp [should_block_command, hA, hB]
  · by_cases hc : cmd = ""
    · subst hc; rfl
    · simp [main, Option.getD, hc, should_block_command, hA, hB]

/-- Witness for C9 at "ls -la". -/
theorem default_allow_witness :
    should_block_command "ls -la" = (false, "") ∧
    main (.ok ⟨some "Bash", some "ls -la"⟩) = ⟨0, []⟩ ∧
    should_block_command "" = (false, "") ∧
    (∀ t : Option String, main (.ok ⟨t, some ""⟩) = ⟨0, []⟩) :=
  default_allow "ls -la" (some "Bash") (by decide) (by decide)

/-- C6 counterexample: "NPM RUN DEV" is blocked (the decision is computed
with IGNORECASE) but `get_help_message` searches case-sensitively, so the
upper-case variant gets the generic fallback message while "npm run dev"
gets the frontend dev-server message — the rendered message is not
case-invariant. -/
theorem case_message_divergence_cex :
    (should_block_command "NPM RUN DEV").1 = true ∧
    (should_block_command "NPM RUN DEV").2 = HELP_fallback ∧
    (should_block_command "npm run dev").2 = HELP_npm_dev ∧
    (should_block_command "NPM RUN DEV").2 ≠ (should_block_command "npm run dev").2 := by
  exact ⟨by decide, by decide, by decide, by decide⟩

/-- C6 amended: the ALLOW/BLOCK decision is case-insensitive — two commands
equal up to letter case always get the same decision — but the help-message
selection is case-sensitive, so a blocked case variant can receive the
generic fallback instead of its category message. -/
theorem case_insensitive_decision (x y : String)
    (h : x.toList.map Char.toLower = y.toList.map Char.toLower) :
    (should_block_command x).1 = (should_block_command y).1 ∧
    (should_block_command "NPM RUN DEV").1 = (should_block_command "npm run dev").1 ∧
    (should_block_command "NPM RUN DEV").2 ≠ (should_block_command "npm run dev").2 := by
  have hs : ∀ p : Rx, reSearch true p x = reSearch true p y := by
    intro p
    simp only [reSearch, if_true]
    rw [h]
  have hA : (ALLOWED_PATTERNS.any fun p => reSearch true p x) =
      (ALLOWED_PATTERNS.any fun p => reSearch true p y) := by
    simp only [hs]
  have hB : (BLOCKED_PATTERNS.any fun p => reSearch true p x) =
      (BLOCKED_PATTERNS.any fun p => reSearch true p y) := by
    simp only [hs]
  refine ⟨?_, by decide, by decide⟩
  simp only [should_block_command, hA, hB]
  by_cases h1 : (ALLOWED_PATTERNS.any fun p => reSearch true p y) = true
  · simp [h1]
  · by_cases h2 : (BLOCKED_PATTERNS.any fun p => reSearch true p y) = true
    · simp [h1, h2]
    · simp [h1, h2]

/-- Witness for C6's amended theorem at the pair "NPM RUN DEV" / "npm run dev". -/
theorem case_insensitive_decision_witness :
    (should_block_command "NPM RUN DEV").1 = (should_block_command "npm run dev").1 ∧
    (should_block_command "NPM RUN DEV").1 = (should_block_command "npm run dev").1 ∧
    (should_block_command "NPM RUN DEV").2 ≠ (should_block_command "npm run dev").2 :=
  case_insensitive_decision "NPM RUN DEV" "npm run dev" (by decide)

end DockerGuard

/-- C4: Fail-open on internal fault.  Any exception escaping the pipeline of
either gate is caught at the single outermost boundary of its dispatcher,
exactly one diagnostic line with that gate's distinct prefix is printed to
the side channel, and the process exits 0, never 2. -/
theorem fail_open_contract :
    (∀ e : String, DockerGuard.main (.error e) = ⟨0, ["Hook error: " ++ e]⟩) ∧
    (∀ (e : String) (probe : TsGuard.ProbeOutcome),
      TsGuard.main (.error e) probe =
        ⟨0, ["TypeScript Quality Guard hook error: " ++ e]⟩) ∧
    (∀ e : String, (DockerGuard.main (.error e)).exitCode = 0 ∧
      (DockerGuard.main (.error e)).stderrLines.length = 1) ∧
    (∀ (e : String) (probe : TsGuard.ProbeOutcome),
      (TsGuard.main (.error e) probe).exitCode = 0 ∧
      (TsGuard.main (.error e) probe).stderrLines.length = 1) :=
  ⟨fun _ => rfl, fun _ _ => rfl, fun _ => ⟨rfl, rfl⟩, fun _ _ => ⟨rfl, rfl⟩⟩

/-- C5 counterexample: the command gate never inspects the event's
action-kind, so an event whose tool name is not one the gate understands but
whose payload carries a command is still classified — here blocked with
exit code 2 and a message — contradicting the claim that it always exits 0
with no output. -/
theorem command_gate_ignores_tool_name_cex :
    DockerGuard.main (.ok ⟨some "Glob", some "npm run dev"⟩) =
      ⟨2, [DockerGuard.HELP_npm_dev]⟩ := by
  decide

/-- C5 amended: an event missing the payload field always yields exit 0 with
no output on both gates, and the write/edit gate also exits 0 silently on an
unrecognized action-kind; but the command gate ignores the action-kind
entirely and classifies any event carrying a non-empty command. -/
theorem malformed_event_robustness :
    (∀ tn : Option String, DockerGuard.main (.ok ⟨tn, none⟩) = ⟨0, []⟩) ∧
    (∀ tn : Option String, DockerGuard.main (.ok ⟨tn, some ""⟩) = ⟨0, []⟩) ∧
    (∀ (t : String) (fp : Option String) (probe : TsGuard.ProbeOutcome),
      t ≠ "Write" → t ≠ "Edit" →
      TsGuard.main (.ok ⟨some t, fp⟩) probe = ⟨0, []⟩) ∧
    (∀ (tn : Option String) (probe : TsGuard.ProbeOutcome),
      TsGuard.main (.ok ⟨tn, none⟩) probe = ⟨0, []⟩) ∧
    (∀ (tn : Option String) (probe : TsGuard.ProbeOutcome),
      TsGuard.main (.ok ⟨tn, some ""⟩) probe = ⟨0, []⟩) ∧
    (DockerGuard.main (.ok ⟨some "Glob", some "npm run dev"⟩)).exitCode = 2 := by
  refine ⟨fun tn => rfl, fun tn => rfl, ?_, ?_, ?_, by decide⟩
  · intro t fp probe h1 h2
    simp [TsGuard.main, Option.getD, h1, h2]
  · intro tn probe
    simp [TsGuard.main, Option.getD]
  · intro tn probe
    simp [TsGuard.main, Option.getD]

/-- Witness for C5's amended theorem: an unrecognized tool name on the
write/edit gate is silent even for a path that would otherwise warn. -/
theorem malformed_event_robustness_witness :
    TsGuard.main (.ok ⟨some "Glob", some "frontend/src/components/Foo.vue"⟩)
      .raised = ⟨0, []⟩ :=
  malformed_event_robustness.2.2.1 "Glob" (some "frontend/src/components/Foo.vue")
    .raised (by decide) (by decide)

namespace TsGuard

/-- C7: Probe-failure robustness and enrichment condition.  A probe that
finds no frontend directory or whose subprocess raises (including the
30-second timeout) returns `none`; on a warning-triggering path the gate
still exits 0, emits the bare warning when the probe is unavailable or
reports zero, and appends the error-count enrichment exactly when the probe
returns a count strictly greater than zero. -/
theorem probe_robustness :
    check_typescript_error_count .noFrontendDir = none ∧
    check_typescript_error_count .raised = none ∧
    check_typescript_error_count (.completed "error TS2345: boom") = some 1 ∧
    check_typescript_error_count (.completed "no errors here") = some 0 ∧
    (∀ (fp w : String) (probe : ProbeOutcome),
      (strIn "frontend/src" fp || strIn "frontend\\src" fp) = true →
      get_pattern_warning fp = some w →
      ((main (.ok ⟨some "Write", some fp⟩) probe).exitCode = 0 ∧
       (check_typescript_error_count probe = none →
         main (.ok ⟨some "Write", some fp⟩) probe = ⟨0, [w]⟩) ∧
       (check_typescript_error_count probe = some 0 →
         main (.ok ⟨some "Write", some fp⟩) probe = ⟨0, [w]⟩) ∧
       (∀ n : Nat, check_typescript_error_count probe = some (n + 1) →
         main (.ok ⟨some "Write", some fp⟩) probe =
           ⟨0, [w ++ enrichment (n + 1)]⟩))) := by
  refine ⟨rfl, rfl, by decide, by decide, ?_⟩
  intro fp w probe h1 h2
  have hne : fp ≠ "" := by
    intro hc; subst hc; exact absurd h1 (by decide)
  refine ⟨?_, ?_, ?_, ?_⟩
  · rcases hc : check_typescript_error_count probe with _ | n
    · simp [main, Option.getD, hne, h1, h2, hc]
    · rcases n with _ | m
      · simp [main, Option.getD, hne, h1, h2, hc]
      · simp [main, Option.getD, hne, h1, h2, hc]
  · intro hc; simp [main, Option.getD, hne, h1, h2, hc]
  · intro hc; simp [main, Option.getD, hne, h1, h2, hc]
  · intro n hc; simp [main, Option.getD, hne, h1, h2, hc]

/-- Witness for C7 at a Vue component path with a failing probe. -/
theorem probe_robustness_witness :
    main (.ok ⟨some "Write", some "frontend/src/components/Foo.vue"⟩) .raised =
      ⟨0, [vueWarning]⟩ :=
  (probe_robustness.2.2.2.2 "frontend/src/components/Foo.vue" vueWarning .raised
    (by decide) (by decide)).2.1 rfl

/-- C8: Single warning per event.  For every write/edit path,
`get_pattern_warning` resolves to the warning of the first matching trigger
in the declared order test-mock, vue, types, composable — and to nothing when
no trigger matches — never an accumulation; the sample path matches both the
test-file and the composable triggers yet the gate emits exactly the
test-file warning alone (which is not the concatenation of the two); and no
event ever produces more than one side-channel message. -/
theorem single_warning_per_event :
    (∀ fp : String,
      get_pattern_warning fp =
        (if reSearch true testMockTrigger fp then some testMockWarning
         else if reSearch true vueTrigger fp then some vueWarning
         else if reSearch true typesTrigger fp then some typesWarning
         else if reSearch true composableTrigger fp then some composableWarning
         else none)) ∧
    reSearch true testMockTrigger "frontend/src/composables/useAuth.spec.ts" = true ∧
    reSearch true composableTrigger "frontend/src/composables/useAuth.spec.ts" = true ∧
    main (.ok ⟨some "Write", some "frontend/src/composables/useAuth.spec.ts"⟩)
      .raised = ⟨0, [testMockWarning]⟩ ∧
    testMockWarning ≠ testMockWarning ++ composableWarning ∧
    (∀ (inp : Except String HookEvent) (probe : ProbeOutcome),
      (main inp probe).stderrLines.length ≤ 1) := by
  refine ⟨?_, by decide, by decide, by decide, by decide, ?_⟩
  · intro fp
    by_cases h1 : reSearch true testMockTrigger fp = true <;>
      by_cases h2 : reSearch true vueTrigger fp = true <;>
        by_cases h3 : reSearch true typesTrigger fp = true <;>
          by_cases h4 : reSearch true composableTrigger fp = true <;>
            simp [get_pattern_warning, PATTERN_WARNINGS, List.find?, h1, h2, h3, h4]
  · intro inp probe
    rcases inp with e | ev
    · simp [main]
    · simp only [main]
      split
      · split
        · simp
        · split
          · split
            · simp
            · split
              · split <;> simp
              · simp
          · simp
      · simp

/-- C10: Implicit frontend-scope gating.  A write/edit event whose path does
not contain "frontend/src" (or the backslash variant) exits 0 with no output
even when the path matches an advisory trigger, as the concrete
"backend/components/Foo.vue" example shows. -/
theorem frontend_scope_gating (tn : Option String) (fp : String)
    (probe : ProbeOutcome)
    (h : (strIn "frontend/src" fp || strIn "frontend\\src" fp) = false) :
    main (.ok ⟨tn, some fp⟩) probe = ⟨0, []⟩ ∧
    main (.ok ⟨some "Write", some "backend/components/Foo.vue"⟩) probe = ⟨0, []⟩ ∧
    reSearch true vueTrigger "backend/components/Foo.vue" = true := by
  refine ⟨?_, ?_, by decide⟩
  · simp [main, Option.getD, h]
  · rfl

/-- Witness for C10 at a Vue path outside frontend/src. -/
theorem frontend_scope_gating_witness :
    main (.ok ⟨some "Write", some "backend/components/Foo.vue"⟩) .raised = ⟨0, []⟩ ∧
    main (.ok ⟨some "Write", some "backend/components/Foo.vue"⟩) .raised = ⟨0, []⟩ ∧
    reSearch true vueTrigger "backend/components/Foo.vue" = true :=
  frontend_scope_gating (some "Write") "backend/components/Foo.vue" .raised (by decide)

end TsGuard
